import Mathlib

/-!
Verification development for the SmartParse.AI watch/batch pipeline
(`smartparse_watch.py`). The Python source is shallowly embedded below:
pure string manipulation is translated directly, filesystem and network
effects are abstracted into an oracle (`FileOracle`) describing what each
external call would return, and each handler produces an explicit trace of
observable events (log records, renames, quarantine attempts, moves).
The worker loop, backfill scan, event bridge and batch coordinator are
embedded as explicit state-passing functions over a queue value.
Wall-clock time is abstracted: `localtime` converts epoch seconds with the
timezone fixed to UTC, and the `now` field of the oracle records the
wall-clock instant of processing (the pipeline must not consult it when
building filenames).
-/

namespace SmartParse

/-! ## String helpers (Python `str` methods, restricted to the uses in the source) -/

/-- Python whitespace for `str.strip`. -/
def isPyWS (c : Char) : Bool :=
  c = ' ' || c = '\t' || c = '\n' || c = '\r' || c = Char.ofNat 11 || c = Char.ofNat 12

/-- Python `str.strip()`. -/
def trimStr (s : String) : String :=
  String.mk (((s.data.dropWhile isPyWS).reverse.dropWhile isPyWS).reverse)

/-- Python `str.lower()` (ASCII case folding, which is all the source feeds it). -/
def lowerStr (s : String) : String :=
  String.mk (s.data.map Char.toLower)

/-- Python `str.replace('_', ' ')`: a single-character replacement is a character map. -/
def underscoresToSpaces (s : String) : String :=
  String.mk (s.data.map (fun c => if c = '_' then ' ' else c))

/-- Python `str.startswith(pre)`. -/
def strStarts (s pre : String) : Bool :=
  pre.data.isPrefixOf s.data

/-- Index of the last occurrence of `c` in the list, if any. -/
def rfindIdx (c : Char) : List Char → Option Nat
  | [] => none
  | a :: rest =>
    match rfindIdx c rest with
    | some i => some (i + 1)
    | none => if a = c then some 0 else none

/-- Python `pathlib.PurePath.suffix` of a file name: the part from the last dot,
    unless that dot is the first or the last character of the name. -/
def pySuffix (name : String) : String :=
  let cs := name.data
  match rfindIdx '.' cs with
  | some i => if 0 < i ∧ i + 1 < cs.length then String.mk (cs.drop i) else ""
  | none => ""

/-- `filepath.suffix.lower()`, the extension key used for all dispatching. -/
def suffixLower (name : String) : String :=
  lowerStr (pySuffix name)

/-! ## Constants from the source -/

def IMAGE_EXTENSIONS : List String :=
  [".jpg", ".jpeg", ".png", ".webp", ".heic", ".heif", ".gif", ".bmp", ".tiff", ".tif"]

def TEXT_EXTENSIONS : List String :=
  [".txt", ".md", ".csv", ".html", ".htm", ".xhtml"]

def PDF_EXTENSION : String := ".pdf"

def OFFICE_EXTENSIONS : List String :=
  [".doc", ".docx", ".xls", ".xlsx", ".ppt", ".pptx"]

/-- The legacy Office formats rejected inside `process_textfile`. -/
def LEGACY_OFFICE : List String := [".doc", ".xls", ".ppt"]

def MAX_QUEUE_SIZE : Nat := 20

/-- The characters rejected by the description validation in `process_image`:
    the Python literal is the six characters brace, close brace, `[`, `]`, `/`, `\`. -/
def pathBreakingChars : List Char :=
  [Char.ofNat 123, Char.ofNat 125, '[', ']', '/', '\\']

/-- The normalization applied to an AI description:
    `.lower().replace('_', ' ').strip()`. -/
def normalizeDescription (raw : String) : String :=
  trimStr (underscoresToSpaces (lowerStr raw))

/-- The validation in `process_image`:
    `not description or any(c in description for c in chars) or len(description) > 160`. -/
def invalidDescription (d : String) : Bool :=
  d == "" || d.data.any (fun c => pathBreakingChars.contains c) || decide (160 < d.data.length)

/-! ## Paths, directory entries, filesystem events -/

/-- A path value: the directory it sits in plus its final name component.
    `dir` stands for Python `filepath.parent`. -/
structure PyPath where
  dir : String
  name : String
deriving DecidableEq, Repr

/-- One result of `WATCH_DIR.glob("*")`. -/
structure DirEntry where
  path : PyPath
  isFile : Bool
deriving DecidableEq, Repr

/-- A watchdog creation event, as consumed by `FileHandler.on_created`. -/
structure FsEvent where
  src_path : PyPath
  is_directory : Bool
deriving DecidableEq, Repr

/-! ## Time: `get_file_datetime_string` -/

/-- Broken-down time, the fields of `time.struct_time` that the format string uses. -/
structure Tm where
  tm_year : Nat
  tm_mon : Nat
  tm_mday : Nat
  tm_hour : Nat
  tm_min : Nat
  tm_sec : Nat
deriving DecidableEq, Repr

/-- `time.localtime` on nonnegative epoch seconds, with the timezone fixed to UTC.
    The date part is the standard civil-from-days conversion. -/
def localtime (ts : Nat) : Tm :=
  let days := ts / 86400
  let secs := ts % 86400
  let z := days + 719468
  let era := z / 146097
  let doe := z % 146097
  let yoe := (doe - doe / 1460 + doe / 36524 - doe / 146096) / 365
  let y := yoe + era * 400
  let doy := doe - (365 * yoe + yoe / 4 - yoe / 100)
  let mp := (5 * doy + 2) / 153
  let d := doy - (153 * mp + 2) / 5 + 1
  let m := if mp < 10 then mp + 3 else mp - 9
  { tm_year := if m ≤ 2 then y + 1 else y
    tm_mon := m
    tm_mday := d
    tm_hour := secs / 3600
    tm_min := secs % 3600 / 60
    tm_sec := secs % 60 }

def pad2 (n : Nat) : String :=
  if n < 10 then "0" ++ toString n else toString n

def pad4 (n : Nat) : String :=
  if n < 10 then "000" ++ toString n
  else if n < 100 then "00" ++ toString n
  else if n < 1000 then "0" ++ toString n
  else toString n

/-- `time.strftime("%Y-%m-%d_%H.%M.%S", t)`. -/
def strftimeYmdHMS (t : Tm) : String :=
  pad4 t.tm_year ++ "-" ++ pad2 t.tm_mon ++ "-" ++ pad2 t.tm_mday ++ "_" ++
    pad2 t.tm_hour ++ "." ++ pad2 t.tm_min ++ "." ++ pad2 t.tm_sec

/-- `get_file_datetime_string`: prefer `st_birthtime`, fall back to `st_mtime`
    when the attribute is unavailable, then format. -/
def get_file_datetime_string (birthtime : Option Nat) (mtime : Nat) : String :=
  match birthtime with
  | some t => strftimeYmdHMS (localtime t)
  | none => strftimeYmdHMS (localtime mtime)

/-! ## Observable events of one processing attempt -/

/-- The externally observable actions a handler performs. A `log` event is one
    appended record of `log_file_operation`; `quarantine` is one call of
    `mark_as_failed` (the rename inside it is best-effort); `renamed` is the
    in-directory rename to the new descriptive name; `moved` is the move into a
    type subfolder; `dropWarning` is the queue-full warning of `on_created`. -/
inductive Event where
  | log (original : String) (newName : Option String) (ftype : String)
        (tag : Option String) (status : String) (error : Option String)
  | renamed (oldName newName : String)
  | moved (name folder : String)
  | quarantine (name : String)
  | dropWarning (name : String)
deriving DecidableEq, Repr

/-! ## The classifier adapter oracle -/

/-- Outcome of the vision call plus JSON parse in `process_image`:
    the call itself can raise, the JSON parse can raise, or it yields the two
    fields after the `or`-defaults (`description or ''`, `category or 'Other'`). -/
inductive ImgClassif where
  | apiError
  | parseError
  | ok (descRaw catRaw : String)
deriving DecidableEq, Repr

/-- Outcome of the text call in `generate_filename_and_category_from_text`:
    the call can raise (propagating to the caller), the JSON parse can succeed
    with the two fields after the `or`-defaults, or the parse fails and the raw
    response text is used as fallback. -/
inductive GenOutcome where
  | apiError
  | parsed (descRaw catRaw : String)
  | fallback (content : String)
deriving DecidableEq, Repr

/-- `generate_filename_and_category_from_text` after the API call: `none` means
    the exception propagates to the calling handler; otherwise the normalized
    `(description, category)` pair is returned. -/
def genResult : GenOutcome → Option (String × String)
  | GenOutcome.apiError => none
  | GenOutcome.parsed d c => some (normalizeDescription d, trimStr c)
  | GenOutcome.fallback content => some (normalizeDescription (trimStr content), "Other")

/-- Everything the environment decides about one file processing attempt.
    Each field is the reply of one external call in the source. `now` is the
    wall-clock time at processing; no pipeline function may consult it for
    filename construction. -/
structure FileOracle where
  readOk : Bool
  imgClassif : ImgClassif
  pdfOpenOk : Bool
  pageCount : Nat
  extractRaises : Bool
  pageText : String
  textExtract : Option String
  genClassif : GenOutcome
  renameOk : Bool
  tagOk : Bool
  moveOk : Bool
  birthtime : Option Nat
  mtime : Nat
  now : Nat
deriving DecidableEq, Repr

/-- The `text` variable of `process_pdf` after the extraction block:
    empty when there are no pages or extraction raised, otherwise the stripped
    first-page text. -/
def pdfEffText (o : FileOracle) : String :=
  if 0 < o.pageCount then (if o.extractRaises then "" else trimStr o.pageText) else ""

/-! ## The four handlers of `FileHandler` -/

/-- `FileHandler.process_image`. -/
def process_image (o : FileOracle) (p : PyPath) : List Event :=
  if o.readOk = false then
    [Event.log p.name none "image" none "fail" (some "exn"), Event.quarantine p.name]
  else
    match o.imgClassif with
    | ImgClassif.apiError =>
      [Event.log p.name none "image" none "fail" (some "exn"), Event.quarantine p.name]
    | ImgClassif.parseError =>
      [Event.log p.name none "image" none "fail" (some "Failed to parse AI response as JSON"),
       Event.quarantine p.name]
    | ImgClassif.ok dRaw cRaw =>
      let description := normalizeDescription dRaw
      let category := trimStr cRaw
      if invalidDescription description then
        [Event.log p.name none "image" none "fail" (some "Invalid description from AI"),
         Event.quarantine p.name]
      else
        let ts := get_file_datetime_string o.birthtime o.mtime
        let newName := description ++ "_" ++ ts ++ suffixLower p.name
        if o.renameOk = false then
          [Event.log p.name none "image" none "fail" (some "exn"), Event.quarantine p.name]
        else if o.tagOk = false then
          [Event.renamed p.name newName,
           Event.log p.name none "image" none "fail" (some "exn"), Event.quarantine p.name]
        else if o.moveOk = false then
          [Event.renamed p.name newName,
           Event.log p.name none "image" none "fail" (some "exn"), Event.quarantine p.name]
        else
          [Event.renamed p.name newName, Event.moved newName "images",
           Event.log p.name (some newName) "image" (some category) "success" none]

/-- `FileHandler.process_pdf`. -/
def process_pdf (o : FileOracle) (p : PyPath) : List Event :=
  if o.pdfOpenOk = false then
    [Event.log p.name none "pdf" none "fail" (some "exn"), Event.quarantine p.name]
  else
    if pdfEffText o = "" then
      [Event.log p.name none "pdf" none "fail" (some "No extractable text"),
       Event.quarantine p.name]
    else
      match genResult o.genClassif with
      | none =>
        [Event.log p.name none "pdf" none "fail" (some "exn"), Event.quarantine p.name]
      | some (description, category) =>
        let ts := get_file_datetime_string o.birthtime o.mtime
        let newName := description ++ "_" ++ ts ++ suffixLower p.name
        if o.renameOk = false then
          [Event.log p.name none "pdf" none "fail" (some "exn"), Event.quarantine p.name]
        else if o.tagOk = false then
          [Event.renamed p.name newName,
           Event.log p.name none "pdf" none "fail" (some "exn"), Event.quarantine p.name]
        else if o.moveOk = false then
          [Event.renamed p.name newName,
           Event.log p.name none "pdf" none "fail" (some "exn"), Event.quarantine p.name]
        else
          [Event.renamed p.name newName, Event.moved newName "pdfs",
           Event.log p.name (some newName) "pdf" (some category) "success" none]

/-- `FileHandler.process_textfile`. The legacy Office branch quarantines
    without writing a log record, exactly as the source does. -/
def process_textfile (o : FileOracle) (p : PyPath) : List Event :=
  let ext := suffixLower p.name
  if LEGACY_OFFICE.contains ext then
    [Event.quarantine p.name]
  else
    match o.textExtract with
    | none =>
      [Event.log p.name none "text" none "fail" (some "exn"), Event.quarantine p.name]
    | some raw =>
      if trimStr raw = "" then
        [Event.log p.name none "text" none "fail" (some "Insufficient content"),
         Event.quarantine p.name]
      else
        match genResult o.genClassif with
        | none =>
          [Event.log p.name none "text" none "fail" (some "exn"), Event.quarantine p.name]
        | some (description, category) =>
          let ts := get_file_datetime_string o.birthtime o.mtime
          let newName := description ++ "_" ++ ts ++ ext
          if o.renameOk = false then
            [Event.log p.name none "text" none "fail" (some "exn"), Event.quarantine p.name]
          else if o.tagOk = false then
            [Event.renamed p.name newName,
             Event.log p.name none "text" none "fail" (some "exn"), Event.quarantine p.name]
          else if o.moveOk = false then
            [Event.renamed p.name newName,
             Event.log p.name none "text" none "fail" (some "exn"), Event.quarantine p.name]
          else
            [Event.renamed p.name newName, Event.moved newName "text",
             Event.log p.name (some newName) "text" (some category) "success" none]

/-- The dispatch order of `handle_file`. -/
inductive Route where
  | pdf
  | image
  | text
  | unsupported
deriving DecidableEq, Repr

/-- The extension dispatch chain of `FileHandler.handle_file`. -/
def routeOf (p : PyPath) : Route :=
  let ext := suffixLower p.name
  if ext = PDF_EXTENSION then Route.pdf
  else if IMAGE_EXTENSIONS.contains ext then Route.image
  else if TEXT_EXTENSIONS.contains ext || OFFICE_EXTENSIONS.contains ext then Route.text
  else Route.unsupported

/-- `FileHandler.handle_file`. -/
def handle_file (o : FileOracle) (p : PyPath) : List Event :=
  match routeOf p with
  | Route.pdf => process_pdf o p
  | Route.image => process_image o p
  | Route.text => process_textfile o p
  | Route.unsupported =>
    [Event.log p.name none "unknown" none "fail" (some "Unsupported file type"),
     Event.quarantine p.name]

/-! ## Trace observations -/

def isLogEv : Event → Bool
  | Event.log _ _ _ _ _ _ => true
  | _ => false

def isFailLogEv : Event → Bool
  | Event.log _ _ _ _ st _ => st == "fail"
  | _ => false

def isSuccessLogEv : Event → Bool
  | Event.log _ _ _ _ st _ => st == "success"
  | _ => false

def isQuarEv : Event → Bool
  | Event.quarantine _ => true
  | _ => false

def isRenameEv : Event → Bool
  | Event.renamed _ _ => true
  | _ => false

def countLogs (t : List Event) : Nat := t.countP isLogEv

def countQuarantine (t : List Event) : Nat := t.countP isQuarEv

def hasFailLog (t : List Event) : Bool := t.any isFailLogEv

def hasSuccessLog (t : List Event) : Bool := t.any isSuccessLogEv

def hasQuarantine (t : List Event) : Bool := t.any isQuarEv

def hasRename (t : List Event) : Bool := t.any isRenameEv

/-- The `(old, new)` pairs of the rename events of a trace. -/
def renamedPairs (t : List Event) : List (String × String) :=
  t.filterMap (fun e =>
    match e with
    | Event.renamed a b => some (a, b)
    | _ => none)

/-- The normalized classifier description a successful run would rename with,
    following the dispatch of `handle_file`. -/
def classifiedDesc (o : FileOracle) (p : PyPath) : String :=
  match routeOf p with
  | Route.image =>
    match o.imgClassif with
    | ImgClassif.ok d _ => normalizeDescription d
    | _ => ""
  | Route.pdf =>
    match genResult o.genClassif with
    | some dc => dc.1
    | none => ""
  | Route.text =>
    match genResult o.genClassif with
    | some dc => dc.1
    | none => ""
  | Route.unsupported => ""

/-! ## The bounded queue (`queue.Queue(maxsize=MAX_QUEUE_SIZE)`) -/

/-- The shared queue value: FIFO item list and the capacity bound. An item is
    `none` for the shutdown sentinel, `some p` for a file path. -/
structure Queue where
  items : List (Option PyPath)
  maxsize : Nat
deriving DecidableEq, Repr

/-- Blocking `Queue.put`: once it returns, the entry sits at the back. -/
def qput (q : Queue) (e : Option PyPath) : Queue :=
  { q with items := q.items ++ [e] }

/-- `Queue.put_nowait`: `none` models the `queue.Full` exception. -/
def put_nowait (q : Queue) (e : Option PyPath) : Option Queue :=
  if 0 < q.maxsize ∧ q.maxsize ≤ q.items.length then none
  else some { q with items := q.items ++ [e] }

/-! ## The worker loop body -/

/-- The queue operations the worker performs on one dequeued entry.
    `handled p` marks the single `handle_file` call; `putBack p` is the
    instability re-queue; `refilled` marks a triggered backfill scan. -/
inductive QOp where
  | taskDone
  | putBack (p : PyPath)
  | handled (p : PyPath)
  | refilled
deriving DecidableEq, Repr

/-- The environment one worker iteration runs in: whether `filepath.stat()`
    raises, the two size samples taken one settle interval apart, the oracle
    for the handlers, and the directory listing a triggered backfill would see. -/
structure WorkerEnv where
  statRaises : Bool
  size1 : Nat
  size2 : Nat
  oracle : FileOracle
  listing : List DirEntry
  watchDir : String
deriving Repr

structure StepResult where
  q : Queue
  events : List Event
  qops : List QOp
deriving Repr

/-- The skip condition of the `refill_queue` loop, in its source order:
    not a file, already quarantined, hidden, not a direct child of the watch
    directory, or the per-pass cap reached. -/
def refillSkip (wd : String) (f : DirEntry) (queued : Nat) : Bool :=
  !f.isFile || strStarts f.path.name "failed_" || strStarts f.path.name "." ||
    !(f.path.dir == wd) || decide (MAX_QUEUE_SIZE ≤ queued)

/-- One pass of the loop in `refill_queue` over the remaining glob results,
    carrying the `queued` counter. A `queue.Full` from `put_nowait` breaks. -/
def refill_loop (wd : String) : List DirEntry → Nat → Queue → Queue
  | [], _, q => q
  | f :: rest, queued, q =>
    if refillSkip wd f queued then
      refill_loop wd rest queued q
    else
      match put_nowait q (some f.path) with
      | some q' => refill_loop wd rest (queued + 1) q'
      | none => q

/-- `refill_queue`, given the listing `WATCH_DIR.glob("*")` returned. -/
def refill_queue (wd : String) (listing : List DirEntry) (q : Queue) : Queue :=
  refill_loop wd listing 0 q

/-- The body of the worker `while` loop after a non-sentinel `get`:
    stability probe, re-queue on size change, otherwise `handle_file`,
    `task_done`, and a backfill scan when the queue has drained.
    The whole body is wrapped in `try/except`; the except branch only calls
    `task_done`, so nothing propagates out of the loop. -/
def workerStep (env : WorkerEnv) (p : PyPath) (q : Queue) : StepResult :=
  if env.statRaises then
    { q := q, events := [], qops := [QOp.taskDone] }
  else if env.size1 ≠ env.size2 then
    { q := qput q (some p), events := [], qops := [QOp.putBack p, QOp.taskDone] }
  else
    let evs := handle_file env.oracle p
    if q.items.isEmpty then
      { q := refill_queue env.watchDir env.listing q, events := evs,
        qops := [QOp.handled p, QOp.taskDone, QOp.refilled] }
    else
      { q := q, events := evs, qops := [QOp.handled p, QOp.taskDone] }

/-- What one dequeue leads to: the sentinel breaks the loop, anything else
    runs the body and continues. -/
inductive IterOut where
  | exit
  | next (r : StepResult)

/-- One iteration of the worker loop, dispatching on the dequeued entry. -/
def worker_iter (env : WorkerEnv) (entry : Option PyPath) (q : Queue) : IterOut :=
  match entry with
  | none => IterOut.exit
  | some p => IterOut.next (workerStep env p q)

def isTaskDoneOp : QOp → Bool
  | QOp.taskDone => true
  | _ => false

def isHandledOp : QOp → Bool
  | QOp.handled _ => true
  | _ => false

def isPutBackOp : QOp → Bool
  | QOp.putBack _ => true
  | _ => false

def countTaskDone (ops : List QOp) : Nat := ops.countP isTaskDoneOp

def countHandled (ops : List QOp) : Nat := ops.countP isHandledOp

def countPutBack (ops : List QOp) : Nat := ops.countP isPutBackOp

/-! ## The event bridge (`FileHandler.on_created`) -/

/-- `FileHandler.on_created`: directory events are ignored; file events are
    enqueued with `put_nowait`; a full queue drops the file with a warning. -/
def on_created (q : Queue) (ev : FsEvent) : Queue × List Event :=
  if ev.is_directory then (q, [])
  else
    match put_nowait q (some ev.src_path) with
    | some q' => (q', [])
    | none => (q, [Event.dropWarning ev.src_path.name])

/-! ## The batch coordinator (`__main__`) -/

/-- The eligibility test of the batch scan in `__main__`, in its source order:
    a file, not quarantined, a direct child, not hidden. -/
def batchEligible (wd : String) (f : DirEntry) : Bool :=
  f.isFile && !(strStarts f.path.name "failed_") && f.path.dir == wd &&
    !(strStarts f.path.name ".")

/-- One pass of the scan loop in `__main__`: enqueue every eligible direct
    child, breaking on a full queue; the returned flag is `files_remaining`. -/
def batch_scan (wd : String) : List DirEntry → Queue → Bool → Queue × Bool
  | [], q, found => (q, found)
  | f :: rest, q, found =>
    if batchEligible wd f then
      match put_nowait q (some f.path) with
      | some q' => batch_scan wd rest q' true
      | none => (q, found)
    else batch_scan wd rest q found

/-- The in-memory statistics of a batch run. -/
structure BatchStats where
  image_count : Nat
  pdf_count : Nat
  text_count : Nat
  fail_count : Nat
deriving DecidableEq, Repr

/-- The patched handlers of batch mode as they act on the statistics:
    `patched_mark_as_failed` bumps `fail_count` on every `mark_as_failed` call
    inside the run, and the per-type wrapper bumps its counter afterwards
    whenever the original argument name lacks the `failed_` marker. -/
def batch_handle (o : FileOracle) (p : PyPath) (s : BatchStats) : BatchStats :=
  let t := handle_file o p
  let s1 := { s with fail_count := s.fail_count + countQuarantine t }
  match routeOf p with
  | Route.pdf =>
    if strStarts p.name "failed_" then s1 else { s1 with pdf_count := s1.pdf_count + 1 }
  | Route.image =>
    if strStarts p.name "failed_" then s1 else { s1 with image_count := s1.image_count + 1 }
  | Route.text =>
    if strStarts p.name "failed_" then s1 else { s1 with text_count := s1.text_count + 1 }
  | Route.unsupported => s1

/-- One enqueue/consume cycle of the batch drain for one eligible file: the
    scan enqueues it (`+1` outstanding), the worker consumes it in a stable
    environment and acknowledges with `task_done`. -/
def batch_step (wd : String) (acc : BatchStats × Nat) (fp : FileOracle × PyPath) :
    BatchStats × Nat :=
  let env : WorkerEnv :=
    { statRaises := false, size1 := 0, size2 := 0, oracle := fp.1, listing := [],
      watchDir := wd }
  let r := workerStep env fp.2 { items := [], maxsize := MAX_QUEUE_SIZE }
  (batch_handle fp.1 fp.2 acc.1, acc.2 + 1 - countTaskDone r.qops)

/-- The scan/drain loop of `__main__` over the N eligible files of the watch
    directory, returning the final statistics and the outstanding-work counter
    that `file_queue.join()` waited on. -/
def zeroStats : BatchStats :=
  { image_count := 0, pdf_count := 0, text_count := 0, fail_count := 0 }

def batch_run (wd : String) (files : List (FileOracle × PyPath)) : BatchStats × Nat :=
  files.foldl (batch_step wd) (zeroStats, 0)

def sumStats (s : BatchStats) : Nat :=
  s.image_count + s.pdf_count + s.text_count + s.fail_count

/-- The quarantine attempts among recognized-type files: what batch failure
    counting adds beyond one per file. -/
def recognizedFailCount (files : List (FileOracle × PyPath)) : Nat :=
  (files.map (fun fp =>
    if routeOf fp.2 = Route.unsupported then 0
    else countQuarantine (handle_file fp.1 fp.2))).sum

/-! ## The error taxonomy at the worker boundary -/

def isLegacy (p : PyPath) : Bool := LEGACY_OFFICE.contains (suffixLower p.name)

/-- Error class: extension in no recognized set. -/
def UnsupportedType (p : PyPath) : Prop := routeOf p = Route.unsupported

/-- Error class: no extractable content (the source could not be opened, the
    PDF yields no first-page text, the text read raises, or the text is blank). -/
def ExtractionFailure (o : FileOracle) (p : PyPath) : Prop :=
  (routeOf p = Route.pdf ∧ (o.pdfOpenOk = false ∨ pdfEffText o = "")) ∨
  (routeOf p = Route.text ∧ isLegacy p = false ∧
    (o.textExtract = none ∨ ∃ t, o.textExtract = some t ∧ trimStr t = "")) ∨
  (routeOf p = Route.image ∧ o.readOk = false)

/-- Error class: the classification call raised, its response did not parse
    (image), or the validated image description is invalid. -/
def ClassificationFailure (o : FileOracle) (p : PyPath) : Prop :=
  (routeOf p = Route.image ∧ o.readOk = true ∧
    (o.imgClassif = ImgClassif.apiError ∨ o.imgClassif = ImgClassif.parseError ∨
      ∃ d c, o.imgClassif = ImgClassif.ok d c ∧
        invalidDescription (normalizeDescription d) = true)) ∨
  (routeOf p = Route.pdf ∧ o.pdfOpenOk = true ∧ pdfEffText o ≠ "" ∧
    o.genClassif = GenOutcome.apiError) ∨
  (routeOf p = Route.text ∧ isLegacy p = false ∧
    (∃ t, o.textExtract = some t ∧ trimStr t ≠ "") ∧
    o.genClassif = GenOutcome.apiError)

/-- Control reaches the rename step: classification succeeded (and, for an
    image, the description passed validation). -/
def ReachedRename (o : FileOracle) (p : PyPath) : Prop :=
  (routeOf p = Route.image ∧ o.readOk = true ∧
    ∃ d c, o.imgClassif = ImgClassif.ok d c ∧
      invalidDescription (normalizeDescription d) = false) ∨
  (routeOf p = Route.pdf ∧ o.pdfOpenOk = true ∧ pdfEffText o ≠ "" ∧
    o.genClassif ≠ GenOutcome.apiError) ∨
  (routeOf p = Route.text ∧ isLegacy p = false ∧
    (∃ t, o.textExtract = some t ∧ trimStr t ≠ "") ∧
    o.genClassif ≠ GenOutcome.apiError)

/-- Error class: the rename, or the move after a successful rename and tag,
    raises. -/
def FilesystemFailure (o : FileOracle) (p : PyPath) : Prop :=
  ReachedRename o p ∧
    (o.renameOk = false ∨ (o.renameOk = true ∧ o.tagOk = true ∧ o.moveOk = false))

/-! ## Concrete fixtures for witnesses and counterexamples -/

/-- An oracle in which every external call succeeds. -/
def oDefault : FileOracle :=
  { readOk := true, imgClassif := ImgClassif.ok "a b c" "Photo", pdfOpenOk := true,
    pageCount := 1, extractRaises := false, pageText := "hello",
    textExtract := some "hello",
    genClassif := GenOutcome.parsed "meeting notes about stuff" "Notes",
    renameOk := true, tagOk := true, moveOk := true, birthtime := some 123456,
    mtime := 99, now := 0 }

/-- The classifier answers with an empty description. -/
def oEmptyDesc : FileOracle := { oDefault with genClassif := GenOutcome.parsed "" "Report" }

/-- The vision classifier answers with an empty description. -/
def oBadImgDesc : FileOracle := { oDefault with imgClassif := ImgClassif.ok "" "Photo" }

/-- The PDF has a first page with no extractable text. -/
def oPdfNoText : FileOracle := { oDefault with pageText := "" }

def pPdf : PyPath := { dir := "w", name := "a.pdf" }

def pDoc : PyPath := { dir := "w", name := "notes.doc" }

def pPng : PyPath := { dir := "w", name := "pic.png" }

def pUnknown : PyPath := { dir := "w", name := "x.zzz" }

def pJpgUpper : PyPath := { dir := "w", name := "photo.JPG" }

def emptyQueue : Queue := { items := [], maxsize := MAX_QUEUE_SIZE }

def fullQueue : Queue :=
  { items := List.replicate MAX_QUEUE_SIZE (some pPdf), maxsize := MAX_QUEUE_SIZE }

/-- A creation event for a file inside a subfolder of the watch directory. -/
def subfolderEvent : FsEvent :=
  { src_path := { dir := "watch/images", name := "x.pdf" }, is_directory := false }

def envStable : WorkerEnv :=
  { statRaises := false, size1 := 7, size2 := 7, oracle := oDefault, listing := [],
    watchDir := "w" }

def envUnstable : WorkerEnv :=
  { statRaises := false, size1 := 7, size2 := 9, oracle := oDefault, listing := [],
    watchDir := "w" }

def sampleListing : List DirEntry :=
  [{ path := { dir := "w", name := "failed_old.pdf" }, isFile := true },
   { path := { dir := "w", name := ".DS_Store" }, isFile := true },
   { path := { dir := "w/images", name := "moved.png" }, isFile := true },
   { path := { dir := "w", name := "good.txt" }, isFile := true }]

/-! ## Helper lemmas -/

theorem put_nowait_items {q : Queue} {e : Option PyPath} {q' : Queue}
    (h : put_nowait q e = some q') : q'.items = q.items ++ [e] := by
  unfold put_nowait at h
  split at h
  · cases h
  · cases h
    rfl

theorem put_nowait_full {q : Queue} (e : Option PyPath)
    (h1 : 0 < q.maxsize) (h2 : q.maxsize ≤ q.items.length) : put_nowait q e = none := by
  unfold put_nowait
  rw [if_pos ⟨h1, h2⟩]

/-- The worker acknowledges every consumed entry exactly once, on every
    control path of the loop body. -/
theorem taskDone_once (env : WorkerEnv) (p : PyPath) (q : Queue) :
    countTaskDone (workerStep env p q).qops = 1 := by
  unfold workerStep
  split
  · rfl
  · split
    · rfl
    · split
      · rfl
      · rfl

/-- In a stable, stat-successful iteration the emitted events are exactly the
    events of one `handle_file` call. -/
theorem stable_events (env : WorkerEnv) (p : PyPath) (q : Queue)
    (hstat : env.statRaises = false) (hsz : env.size1 = env.size2) :
    (workerStep env p q).events = handle_file env.oracle p := by
  unfold workerStep
  rw [hstat]
  simp only [Bool.false_eq_true, if_false, hsz, ne_eq, not_true_eq_false]
  split
  · rfl
  · rfl

/-! ## Claim theorems -/

/-- C1: for every dequeued entry (with the two size samples observed one
    settle interval apart and `stat` succeeding), equal samples lead to exactly
    one `handle_file` call and no re-queue, while differing samples lead to the
    entry rejoining at the back of the queue and no processing in that cycle. -/
theorem c1_stability_probe (env : WorkerEnv) (p : PyPath) (q : Queue)
    (hstat : env.statRaises = false) :
    (env.size1 = env.size2 →
      countHandled (workerStep env p q).qops = 1 ∧
      countPutBack (workerStep env p q).qops = 0) ∧
    (env.size1 ≠ env.size2 →
      (workerStep env p q).q.items = q.items ++ [some p] ∧
      countPutBack (workerStep env p q).qops = 1 ∧
      countHandled (workerStep env p q).qops = 0) := by
  constructor
  · intro hsz
    unfold workerStep
    rw [hstat]
    simp only [Bool.false_eq_true, if_false, hsz, ne_eq, not_true_eq_false]
    split
    · exact ⟨rfl, rfl⟩
    · exact ⟨rfl, rfl⟩
  · intro hsz
    unfold workerStep
    rw [hstat]
    simp only [Bool.false_eq_true, if_false, ne_eq, hsz, not_false_eq_true, if_true]
    exact ⟨rfl, rfl, rfl⟩

theorem c1_stability_probe_witness :
    (envStable.statRaises = false) ∧
    ((envStable.size1 = envStable.size2 →
      countHandled (workerStep envStable pPdf emptyQueue).qops = 1 ∧
      countPutBack (workerStep envStable pPdf emptyQueue).qops = 0) ∧
    (envStable.size1 ≠ envStable.size2 →
      (workerStep envStable pPdf emptyQueue).q.items = emptyQueue.items ++ [some pPdf] ∧
      countPutBack (workerStep envStable pPdf emptyQueue).qops = 1 ∧
      countHandled (workerStep envStable pPdf emptyQueue).qops = 0)) :=
  ⟨rfl, c1_stability_probe envStable pPdf emptyQueue rfl⟩

/-- C2 (divergence witness): a legacy Office file (`.doc`) reaches the
    terminal fail outcome of `process_textfile` — it is quarantined — yet zero
    log records are appended, contradicting the one-record-per-outcome rule
    that every other terminal branch of the handlers obeys. -/
theorem c2_legacy_office_outcome_without_log :
    countLogs (handle_file oDefault pDoc) = 0 ∧
    countQuarantine (handle_file oDefault pDoc) = 1 := by
  constructor
  · rfl
  · rfl

/-- C10: every non-sentinel dequeued entry is acknowledged with exactly one
    `task_done` on every control path (re-queue, success, exception), and the
    sentinel exits the loop without touching the counter. -/
theorem c10_task_done_exactly_once (env : WorkerEnv) (p : PyPath) (q : Queue) :
    countTaskDone (workerStep env p q).qops = 1 ∧
    worker_iter env none q = IterOut.exit :=
  ⟨taskDone_once env p q, rfl⟩

/-- C3 (counterexample): a PDF whose classification result has an empty
    description is not quarantined — `process_pdf` performs no description
    validation and renames the file, logging success. -/
theorem c3_counterexample_pdf_empty_description :
    classifiedDesc oEmptyDesc pPdf = "" ∧
    hasRename (handle_file oEmptyDesc pPdf) = true ∧
    hasSuccessLog (handle_file oEmptyDesc pPdf) = true ∧
    hasQuarantine (handle_file oEmptyDesc pPdf) = false := by
  refine ⟨rfl, rfl, rfl, rfl⟩

/-- C3 (amended): only `process_image` validates the description; for image
    files, a classification description that is empty, contains one of the
    path-breaking characters, or exceeds 160 characters always leads to a
    quarantine and never to a rename. -/
theorem c3_image_invalid_description_quarantines (o : FileOracle) (p : PyPath)
    (d c : String) (hread : o.readOk = true) (hcl : o.imgClassif = ImgClassif.ok d c)
    (hinv : invalidDescription (normalizeDescription d) = true) :
    hasQuarantine (process_image o p) = true ∧
    hasRename (process_image o p) = false := by
  unfold process_image
  rw [hread, hcl]
  simp only [Bool.true_eq_false, if_false, hinv, if_true]
  exact ⟨rfl, rfl⟩

theorem c3_image_invalid_description_quarantines_witness :
    (oBadImgDesc.readOk = true ∧ oBadImgDesc.imgClassif = ImgClassif.ok "" "Photo" ∧
      invalidDescription (normalizeDescription "") = true) ∧
    (hasQuarantine (process_image oBadImgDesc pPng) = true ∧
      hasRename (process_image oBadImgDesc pPng) = false) :=
  ⟨⟨rfl, rfl, rfl⟩,
    c3_image_invalid_description_quarantines oBadImgDesc pPng "" "Photo" rfl rfl rfl⟩

/-- An unrecognized extension always produces exactly one quarantine attempt. -/
theorem countQuar_unsupported (o : FileOracle) (p : PyPath)
    (h : routeOf p = Route.unsupported) : countQuarantine (handle_file o p) = 1 := by
  unfold handle_file
  rw [h]
  rfl

/-- How one patched handler call moves the four batch counters. -/
theorem sum_batch_handle (o : FileOracle) (p : PyPath) (s : BatchStats) :
    sumStats (batch_handle o p s) =
      sumStats s + countQuarantine (handle_file o p) +
        (if routeOf p = Route.unsupported ∨ strStarts p.name "failed_" = true
         then 0 else 1) := by
  unfold batch_handle sumStats
  cases hroute : routeOf p <;> simp only [hroute] <;> split <;> simp_all <;> omega

theorem recognizedFailCount_cons (fp : FileOracle × PyPath)
    (files : List (FileOracle × PyPath)) :
    recognizedFailCount (fp :: files) =
      (if routeOf fp.2 = Route.unsupported then 0
       else countQuarantine (handle_file fp.1 fp.2)) + recognizedFailCount files := by
  unfold recognizedFailCount
  rw [List.map_cons, List.sum_cons]

/-- The batch drain, from any starting statistics: the outstanding counter is
    conserved and the counter sum grows by one per file plus one per
    recognized-type quarantine. -/
theorem batch_fold (wd : String) (files : List (FileOracle × PyPath)) :
    ∀ (s : BatchStats) (u : Nat),
      (∀ fp ∈ files, strStarts fp.2.name "failed_" = false) →
      (files.foldl (batch_step wd) (s, u)).2 = u ∧
      sumStats (files.foldl (batch_step wd) (s, u)).1 =
        sumStats s + files.length + recognizedFailCount files := by
  induction files with
  | nil =>
    intro s u _
    exact ⟨rfl, by simp [recognizedFailCount]⟩
  | cons f rest ih =>
    intro s u h
    have hf : strStarts f.2.name "failed_" = false := h f (List.mem_cons_self f rest)
    have hrest : ∀ fp ∈ rest, strStarts fp.2.name "failed_" = false :=
      fun fp hm => h fp (List.mem_cons_of_mem f hm)
    have hstep : batch_step wd (s, u) f = (batch_handle f.1 f.2 s, u) := by
      simp only [batch_step, taskDone_once, Nat.add_sub_cancel]
    rw [List.foldl_cons, hstep]
    obtain ⟨h1, h2⟩ := ih (batch_handle f.1 f.2 s) u hrest
    refine ⟨h1, ?_⟩
    rw [h2, sum_batch_handle, recognizedFailCount_cons, List.length_cons]
    by_cases hu : routeOf f.2 = Route.unsupported
    · rw [countQuar_unsupported f.1 f.2 hu, if_pos (Or.inl hu), if_pos hu]
      omega
    · have hcond : ¬(routeOf f.2 = Route.unsupported ∨ strStarts f.2.name "failed_" = true) := by
        rintro (hc | hc)
        · exact hu hc
        · rw [hf] at hc
          cases hc
      rw [if_neg hcond, if_neg hu]
      omega

/-- C4 (counterexample): one eligible PDF with no extractable text yields
    `pdf_count = 1` and `fail_count = 1` — the patched type wrapper counts the
    file even though it failed, so the counter sum is 2, not N = 1. -/
theorem c4_counterexample_failed_pdf_counted_twice :
    (batch_run "w" [(oPdfNoText, pPdf)]).2 = 0 ∧
    (batch_run "w" [(oPdfNoText, pPdf)]).1.pdf_count = 1 ∧
    (batch_run "w" [(oPdfNoText, pPdf)]).1.fail_count = 1 ∧
    sumStats (batch_run "w" [(oPdfNoText, pPdf)]).1 = 2 ∧
    [(oPdfNoText, pPdf)].length = 1 ∧ (2 : Nat) ≠ 1 := by
  refine ⟨rfl, rfl, rfl, rfl, rfl, by decide⟩

/-- C4 (amended): after the batch drain the outstanding-work counter is zero,
    and the per-type counters plus the failure counter sum to N plus one for
    every recognized-type file that was quarantined (the type wrappers count a
    processed file whether or not it succeeded). The sum equals N exactly when
    no recognized-type file fails. -/
theorem c4_batch_counters (wd : String) (files : List (FileOracle × PyPath))
    (h : ∀ fp ∈ files, strStarts fp.2.name "failed_" = false) :
    (batch_run wd files).2 = 0 ∧
    sumStats (batch_run wd files).1 = files.length + recognizedFailCount files := by
  have hb := batch_fold wd files zeroStats 0 h
  have hz : sumStats zeroStats = 0 := rfl
  unfold batch_run
  refine ⟨hb.1, ?_⟩
  rw [hb.2]
  omega

theorem c4_batch_counters_witness :
    (∀ fp ∈ [(oDefault, pPdf), (oDefault, pUnknown)],
      strStarts fp.2.name "failed_" = false) ∧
    ((batch_run "w" [(oDefault, pPdf), (oDefault, pUnknown)]).2 = 0 ∧
      sumStats (batch_run "w" [(oDefault, pPdf), (oDefault, pUnknown)]).1 =
        [(oDefault, pPdf), (oDefault, pUnknown)].length +
          recognizedFailCount [(oDefault, pPdf), (oDefault, pUnknown)]) :=
  ⟨by decide, c4_batch_counters "w" [(oDefault, pPdf), (oDefault, pUnknown)] (by decide)⟩

/-- Any entry the refill loop adds passed the full skip filter: it is a
    non-quarantined, non-hidden file lying directly in the watch directory. -/
theorem refill_loop_mem (wd : String) :
    ∀ (files : List DirEntry) (queued : Nat) (q : Queue) (e : Option PyPath),
      e ∈ (refill_loop wd files queued q).items →
      e ∈ q.items ∨ ∃ p : PyPath, e = some p ∧ strStarts p.name "failed_" = false ∧
        strStarts p.name "." = false ∧ p.dir = wd := by
  intro files
  induction files with
  | nil => intro queued q e h; exact Or.inl h
  | cons f rest ih =>
    intro queued q e h
    rw [refill_loop] at h
    split at h
    · exact ih queued q e h
    · rename_i hskip
      have hskip' : refillSkip wd f queued = false := by
        cases hval : refillSkip wd f queued
        · rfl
        · exact absurd hval hskip
      simp only [refillSkip, Bool.or_eq_false_iff, Bool.not_eq_false',
        Bool.not_eq_true', beq_iff_eq, decide_eq_false_iff_not] at hskip'
      obtain ⟨⟨⟨⟨_, hfail⟩, hhid⟩, hdir⟩, _⟩ := hskip'
      split at h
      · rename_i q' heq
        rcases ih _ _ _ h with hin | hP
        · rw [put_nowait_items heq] at hin
          rcases List.mem_append.mp hin with h1 | h2
          · exact Or.inl h1
          · have he : e = some f.path := List.mem_singleton.mp h2
            exact Or.inr ⟨f.path, he, hfail, hhid, hdir⟩
        · exact Or.inr hP
      · exact Or.inl h

/-- Any entry the batch scan adds passed the eligibility filter. -/
theorem batch_scan_mem (wd : String) :
    ∀ (files : List DirEntry) (q : Queue) (found : Bool) (e : Option PyPath),
      e ∈ (batch_scan wd files q found).1.items →
      e ∈ q.items ∨ ∃ p : PyPath, e = some p ∧ strStarts p.name "failed_" = false ∧
        strStarts p.name "." = false ∧ p.dir = wd := by
  intro files
  induction files with
  | nil => intro q found e h; exact Or.inl h
  | cons f rest ih =>
    intro q found e h
    rw [batch_scan] at h
    split at h
    · rename_i helig
      simp only [batchEligible, Bool.and_eq_true, Bool.not_eq_true',
        beq_iff_eq] at helig
      obtain ⟨⟨⟨_, hfail⟩, hdir⟩, hhid⟩ := helig
      split at h
      · rename_i q' heq
        rcases ih _ _ _ h with hin | hP
        · rw [put_nowait_items heq] at hin
          rcases List.mem_append.mp hin with h1 | h2
          · exact Or.inl h1
          · have he : e = some f.path := List.mem_singleton.mp h2
            exact Or.inr ⟨f.path, he, hfail, hhid, hdir⟩
        · exact Or.inr hP
      · exact Or.inl h
    · exact ih q found e h

/-- C6: neither the backfill scan nor the batch scan ever enqueues a file
    whose name carries the quarantine marker or is hidden; every entry either
    was already queued or passed both name filters. -/
theorem c6_quarantined_never_requeued (wd : String) (listing : List DirEntry)
    (q : Queue) (found : Bool) (e : Option PyPath) :
    (e ∈ (refill_queue wd listing q).items →
      e ∈ q.items ∨ ∃ p : PyPath, e = some p ∧ strStarts p.name "failed_" = false ∧
        strStarts p.name "." = false) ∧
    (e ∈ (batch_scan wd listing q found).1.items →
      e ∈ q.items ∨ ∃ p : PyPath, e = some p ∧ strStarts p.name "failed_" = false ∧
        strStarts p.name "." = false) := by
  constructor
  · intro h
    rcases refill_loop_mem wd listing 0 q e h with hin | ⟨p, he, h1, h2, _⟩
    · exact Or.inl hin
    · exact Or.inr ⟨p, he, h1, h2⟩
  · intro h
    rcases batch_scan_mem wd listing q found e h with hin | ⟨p, he, h1, h2, _⟩
    · exact Or.inl hin
    · exact Or.inr ⟨p, he, h1, h2⟩

theorem c6_quarantined_never_requeued_witness :
    (some { dir := "w", name := "good.txt" } ∈
      (refill_queue "w" sampleListing emptyQueue).items) ∧
    (some { dir := "w", name := "good.txt" } ∈ emptyQueue.items ∨
      ∃ p : PyPath, some { dir := "w", name := "good.txt" } = some p ∧
        strStarts p.name "failed_" = false ∧ strStarts p.name "." = false) :=
  ⟨by decide,
    (c6_quarantined_never_requeued "w" sampleListing emptyQueue false
      (some { dir := "w", name := "good.txt" })).1 (by decide)⟩

/-- C7 (counterexample): `on_created` enqueues any non-directory creation
    event path without a parent-directory check — here a file inside the
    `images` subfolder is enqueued even though its parent is not the watch
    directory. -/
theorem c7_counterexample_on_created_no_parent_check :
    (on_created emptyQueue subfolderEvent).1.items =
      [some { dir := "watch/images", name := "x.pdf" }] ∧
    subfolderEvent.src_path.dir ≠ "watch" := by
  refine ⟨rfl, by decide⟩

/-- C7 (amended): the parent-directory equality check holds at the backfill
    and batch scan enqueue sites — every entry they add is a direct child of
    the watch directory — but `on_created` enqueues without any parent check. -/
theorem c7_scans_enqueue_direct_children_only (wd : String) (listing : List DirEntry)
    (q : Queue) (found : Bool) (e : Option PyPath) :
    (e ∈ (refill_queue wd listing q).items →
      e ∈ q.items ∨ ∃ p : PyPath, e = some p ∧ p.dir = wd) ∧
    (e ∈ (batch_scan wd listing q found).1.items →
      e ∈ q.items ∨ ∃ p : PyPath, e = some p ∧ p.dir = wd) := by
  constructor
  · intro h
    rcases refill_loop_mem wd listing 0 q e h with hin | ⟨p, he, _, _, hd⟩
    · exact Or.inl hin
    · exact Or.inr ⟨p, he, hd⟩
  · intro h
    rcases batch_scan_mem wd listing q found e h with hin | ⟨p, he, _, _, hd⟩
    · exact Or.inl hin
    · exact Or.inr ⟨p, he, hd⟩

theorem c7_scans_enqueue_direct_children_only_witness :
    (some { dir := "w", name := "good.txt" } ∈
      (batch_scan "w" sampleListing emptyQueue false).1.items) ∧
    (some { dir := "w", name := "good.txt" } ∈ emptyQueue.items ∨
      ∃ p : PyPath, some { dir := "w", name := "good.txt" } = some p ∧ p.dir = "w") :=
  ⟨by decide,
    (c7_scans_enqueue_direct_children_only "w" sampleListing emptyQueue false
      (some { dir := "w", name := "good.txt" })).2 (by decide)⟩

/-- C8: an enqueue attempt against a full queue returns without waiting —
    `on_created` leaves the queue unchanged and emits the drop warning, and
    the refill loop returns with the queue unchanged (its first eligible
    `put_nowait` raises `queue.Full` and the scan breaks). -/
theorem c8_full_queue_never_blocks (q : Queue) (ev : FsEvent) (wd : String)
    (listing : List DirEntry) (queued : Nat)
    (h1 : 0 < q.maxsize) (h2 : q.maxsize ≤ q.items.length) :
    (ev.is_directory = false →
      on_created q ev = (q, [Event.dropWarning ev.src_path.name])) ∧
    refill_loop wd listing queued q = q := by
  constructor
  · intro hd
    unfold on_created
    rw [hd]
    simp only [Bool.false_eq_true, if_false, put_nowait_full (some ev.src_path) h1 h2]
  · induction listing generalizing queued with
    | nil => rfl
    | cons f rest ih =>
      rw [refill_loop]
      split
      · exact ih queued
      · rw [put_nowait_full (some f.path) h1 h2]

theorem c8_full_queue_never_blocks_witness :
    (0 < fullQueue.maxsize ∧ fullQueue.maxsize ≤ fullQueue.items.length) ∧
    ((subfolderEvent.is_directory = false →
      on_created fullQueue subfolderEvent =
        (fullQueue, [Event.dropWarning subfolderEvent.src_path.name])) ∧
    refill_loop "w" sampleListing 0 fullQueue = fullQueue) :=
  ⟨⟨by decide, by decide⟩,
    c8_full_queue_never_blocks fullQueue subfolderEvent "w" sampleListing 0
      (by decide) (by decide)⟩

theorem genResult_of_ne {g : GenOutcome} (h : g ≠ GenOutcome.apiError) :
    ∃ dc : String × String, genResult g = some dc := by
  cases g
  · exact absurd rfl h
  · exact ⟨_, rfl⟩
  · exact ⟨_, rfl⟩

theorem failquar_unsupported (o : FileOracle) (p : PyPath) (h : UnsupportedType p) :
    hasFailLog (handle_file o p) = true ∧ hasQuarantine (handle_file o p) = true := by
  unfold UnsupportedType at h
  unfold handle_file
  rw [h]
  exact ⟨rfl, rfl⟩

theorem failquar_extraction (o : FileOracle) (p : PyPath) (h : ExtractionFailure o p) :
    hasFailLog (handle_file o p) = true ∧ hasQuarantine (handle_file o p) = true := by
  unfold ExtractionFailure at h
  rcases h with ⟨hr, hopen | htext⟩ | ⟨hr, hleg, hnone | ⟨t, hext, htrim⟩⟩ | ⟨hr, hread⟩
  · unfold handle_file
    rw [hr]
    unfold process_pdf
    rw [hopen]
    exact ⟨rfl, rfl⟩
  · cases hopen : o.pdfOpenOk
    · unfold handle_file
      rw [hr]
      unfold process_pdf
      rw [hopen]
      exact ⟨rfl, rfl⟩
    · unfold handle_file
      rw [hr]
      unfold process_pdf
      rw [hopen, htext]
      exact ⟨rfl, rfl⟩
  · unfold isLegacy at hleg
    unfold handle_file
    rw [hr]
    simp only [process_textfile, hleg, hnone]
    exact ⟨rfl, rfl⟩
  · unfold isLegacy at hleg
    unfold handle_file
    rw [hr]
    simp only [process_textfile, hleg, hext]
    rw [htrim]
    exact ⟨rfl, rfl⟩
  · unfold handle_file
    rw [hr]
    unfold process_image
    rw [hread]
    exact ⟨rfl, rfl⟩

theorem failquar_classification (o : FileOracle) (p : PyPath)
    (h : ClassificationFailure o p) :
    hasFailLog (handle_file o p) = true ∧ hasQuarantine (handle_file o p) = true := by
  unfold ClassificationFailure at h
  rcases h with ⟨hr, hread, hapi | hparse | ⟨d, c, hcl, hinv⟩⟩ |
    ⟨hr, hopen, htext, hapi⟩ | ⟨hr, hleg, ⟨t, hext, htrim⟩, hapi⟩
  · unfold handle_file
    rw [hr]
    unfold process_image
    rw [hread, hapi]
    exact ⟨rfl, rfl⟩
  · unfold handle_file
    rw [hr]
    unfold process_image
    rw [hread, hparse]
    exact ⟨rfl, rfl⟩
  · unfold handle_file
    rw [hr]
    simp only [process_image, hread, hcl]
    rw [hinv]
    exact ⟨rfl, rfl⟩
  · unfold handle_file
    rw [hr]
    unfold process_pdf
    rw [hopen, if_neg htext, hapi]
    exact ⟨rfl, rfl⟩
  · unfold isLegacy at hleg
    unfold handle_file
    rw [hr]
    simp only [process_textfile, hleg, hext]
    rw [if_neg htrim, hapi]
    exact ⟨rfl, rfl⟩

theorem failquar_filesystem (o : FileOracle) (p : PyPath)
    (h : FilesystemFailure o p) :
    hasFailLog (handle_file o p) = true ∧ hasQuarantine (handle_file o p) = true := by
  obtain ⟨hreach, hfs⟩ := h
  unfold ReachedRename at hreach
  rcases hreach with ⟨hr, hread, ⟨d, c, hcl, hval⟩⟩ | ⟨hr, hopen, htext, hne⟩ |
    ⟨hr, hleg, ⟨t, hext, htrim⟩, hne⟩
  · unfold handle_file
    rw [hr]
    simp only [process_image, hread, hcl]
    rw [hval]
    rcases hfs with hrn | ⟨hrn, htag, hmv⟩
    · rw [hrn]
      exact ⟨rfl, rfl⟩
    · rw [hrn, htag, hmv]
      exact ⟨rfl, rfl⟩
  · obtain ⟨⟨d, c⟩, hg⟩ := genResult_of_ne hne
    unfold handle_file
    rw [hr]
    simp only [process_pdf, hopen, hg]
    rw [if_neg htext]
    rcases hfs with hrn | ⟨hrn, htag, hmv⟩
    · rw [hrn]
      exact ⟨rfl, rfl⟩
    · rw [hrn, htag, hmv]
      exact ⟨rfl, rfl⟩
  · obtain ⟨⟨d, c⟩, hg⟩ := genResult_of_ne hne
    unfold isLegacy at hleg
    unfold handle_file
    rw [hr]
    simp only [process_textfile, hleg, hext, hg]
    rw [if_neg htrim]
    rcases hfs with hrn | ⟨hrn, htag, hmv⟩
    · rw [hrn]
      exact ⟨rfl, rfl⟩
    · rw [hrn, htag, hmv]
      exact ⟨rfl, rfl⟩

/-- C5: every terminal per-file error of the four classes (unsupported type,
    extraction failure, classification failure, filesystem failure) is caught
    at the worker per-file boundary: the iteration continues the loop instead
    of dying, acknowledges the entry exactly once, and its trace contains a
    fail log record and a best-effort quarantine attempt. -/
theorem c5_errors_caught_at_worker_boundary (env : WorkerEnv) (p : PyPath)
    (q : Queue) (hstat : env.statRaises = false) (hsz : env.size1 = env.size2)
    (herr : UnsupportedType p ∨ ExtractionFailure env.oracle p ∨
      ClassificationFailure env.oracle p ∨ FilesystemFailure env.oracle p) :
    worker_iter env (some p) q = IterOut.next (workerStep env p q) ∧
    countTaskDone (workerStep env p q).qops = 1 ∧
    hasFailLog (workerStep env p q).events = true ∧
    hasQuarantine (workerStep env p q).events = true := by
  have hev := stable_events env p q hstat hsz
  have hfq : hasFailLog (handle_file env.oracle p) = true ∧
      hasQuarantine (handle_file env.oracle p) = true := by
    rcases herr with h | h | h | h
    · exact failquar_unsupported env.oracle p h
    · exact failquar_extraction env.oracle p h
    · exact failquar_classification env.oracle p h
    · exact failquar_filesystem env.oracle p h
  refine ⟨rfl, taskDone_once env p q, ?_, ?_⟩
  · rw [hev]
    exact hfq.1
  · rw [hev]
    exact hfq.2

theorem c5_errors_caught_at_worker_boundary_witness :
    (envStable.statRaises = false ∧ envStable.size1 = envStable.size2 ∧
      (UnsupportedType pUnknown ∨ ExtractionFailure envStable.oracle pUnknown ∨
        ClassificationFailure envStable.oracle pUnknown ∨
        FilesystemFailure envStable.oracle pUnknown)) ∧
    (worker_iter envStable (some pUnknown) emptyQueue =
      IterOut.next (workerStep envStable pUnknown emptyQueue) ∧
    countTaskDone (workerStep envStable pUnknown emptyQueue).qops = 1 ∧
    hasFailLog (workerStep envStable pUnknown emptyQueue).events = true ∧
    hasQuarantine (workerStep envStable pUnknown emptyQueue).events = true) :=
  ⟨⟨rfl, rfl, Or.inl rfl⟩,
    c5_errors_caught_at_worker_boundary envStable pUnknown emptyQueue rfl rfl
      (Or.inl rfl)⟩

theorem rename_shape_pdf (o : FileOracle) (p : PyPath) (hr : routeOf p = Route.pdf)
    (pr : String × String) (hmem : pr ∈ renamedPairs (process_pdf o p)) :
    pr.2 = classifiedDesc o p ++ "_" ++ get_file_datetime_string o.birthtime o.mtime ++
      suffixLower p.name := by
  unfold process_pdf at hmem
  by_cases hopen : o.pdfOpenOk = false
  · rw [if_pos hopen] at hmem
    simp [renamedPairs] at hmem
  · rw [if_neg hopen] at hmem
    by_cases htext : pdfEffText o = ""
    · rw [if_pos htext] at hmem
      simp [renamedPairs] at hmem
    · rw [if_neg htext] at hmem
      cases hg : genResult o.genClassif with
      | none =>
        simp only [hg] at hmem
        simp [renamedPairs] at hmem
      | some dc =>
        obtain ⟨d, c⟩ := dc
        simp only [hg] at hmem
        have hdesc : classifiedDesc o p = d := by
          unfold classifiedDesc
          rw [hr, hg]
        rw [hdesc]
        by_cases hrn : o.renameOk = false
        · rw [if_pos hrn] at hmem
          simp [renamedPairs] at hmem
        · rw [if_neg hrn] at hmem
          by_cases htag : o.tagOk = false
          · rw [if_pos htag] at hmem
            simp [renamedPairs] at hmem
            rw [hmem]
          · rw [if_neg htag] at hmem
            by_cases hmv : o.moveOk = false
            · rw [if_pos hmv] at hmem
              simp [renamedPairs] at hmem
              rw [hmem]
            · rw [if_neg hmv] at hmem
              simp [renamedPairs] at hmem
              rw [hmem]

theorem rename_shape_image (o : FileOracle) (p : PyPath)
    (hr : routeOf p = Route.image) (pr : String × String)
    (hmem : pr ∈ renamedPairs (process_image o p)) :
    pr.2 = classifiedDesc o p ++ "_" ++ get_file_datetime_string o.birthtime o.mtime ++
      suffixLower p.name := by
  unfold process_image at hmem
  by_cases hread : o.readOk = false
  · rw [if_pos hread] at hmem
    simp [renamedPairs] at hmem
  · rw [if_neg hread] at hmem
    cases hcl : o.imgClassif with
    | apiError =>
      simp only [hcl] at hmem
      simp [renamedPairs] at hmem
    | parseError =>
      simp only [hcl] at hmem
      simp [renamedPairs] at hmem
    | ok d c =>
      simp only [hcl] at hmem
      have hdesc : classifiedDesc o p = normalizeDescription d := by
        unfold classifiedDesc
        rw [hr, hcl]
      rw [hdesc]
      by_cases hinv : invalidDescription (normalizeDescription d) = true
      · rw [if_pos hinv] at hmem
        simp [renamedPairs] at hmem
      · rw [if_neg hinv] at hmem
        by_cases hrn : o.renameOk = false
        · rw [if_pos hrn] at hmem
          simp [renamedPairs] at hmem
        · rw [if_neg hrn] at hmem
          by_cases htag : o.tagOk = false
          · rw [if_pos htag] at hmem
            simp [renamedPairs] at hmem
            rw [hmem]
          · rw [if_neg htag] at hmem
            by_cases hmv : o.moveOk = false
            · rw [if_pos hmv] at hmem
              simp [renamedPairs] at hmem
              rw [hmem]
            · rw [if_neg hmv] at hmem
              simp [renamedPairs] at hmem
              rw [hmem]

theorem rename_shape_text (o : FileOracle) (p : PyPath)
    (hr : routeOf p = Route.text) (pr : String × String)
    (hmem : pr ∈ renamedPairs (process_textfile o p)) :
    pr.2 = classifiedDesc o p ++ "_" ++ get_file_datetime_string o.birthtime o.mtime ++
      suffixLower p.name := by
  unfold process_textfile at hmem
  by_cases hleg : LEGACY_OFFICE.contains (suffixLower p.name) = true
  · rw [if_pos hleg] at hmem
    simp [renamedPairs] at hmem
  · rw [if_neg hleg] at hmem
    cases hext : o.textExtract with
    | none =>
      simp only [hext] at hmem
      simp [renamedPairs] at hmem
    | some t =>
      simp only [hext] at hmem
      by_cases htrim : trimStr t = ""
      · rw [if_pos htrim] at hmem
        simp [renamedPairs] at hmem
      · rw [if_neg htrim] at hmem
        cases hg : genResult o.genClassif with
        | none =>
          simp only [hg] at hmem
          simp [renamedPairs] at hmem
        | some dc =>
          obtain ⟨d, c⟩ := dc
          simp only [hg] at hmem
          have hdesc : classifiedDesc o p = d := by
            unfold classifiedDesc
            rw [hr, hg]
          rw [hdesc]
          by_cases hrn : o.renameOk = false
          · rw [if_pos hrn] at hmem
            simp [renamedPairs] at hmem
          · rw [if_neg hrn] at hmem
            by_cases htag : o.tagOk = false
            · rw [if_pos htag] at hmem
              simp [renamedPairs] at hmem
              rw [hmem]
            · rw [if_neg htag] at hmem
              by_cases hmv : o.moveOk = false
              · rw [if_pos hmv] at hmem
                simp [renamedPairs] at hmem
                rw [hmem]
              · rw [if_neg hmv] at hmem
                simp [renamedPairs] at hmem
                rw [hmem]

/-- C9 (amended): whenever any handler renames a file, the new name is
    `<description>_<timestamp><lowercased original extension>`, where the
    timestamp is the `YYYY-MM-DD_HH.MM.SS` rendering of the file birth time
    when the platform provides one and of the modification time otherwise, and
    the handlers are independent of the wall-clock instant of processing. -/
theorem c9_rename_uses_file_metadata_timestamp (o : FileOracle) (p : PyPath)
    (pr : String × String) (hmem : pr ∈ renamedPairs (handle_file o p)) :
    pr.2 = classifiedDesc o p ++ "_" ++ get_file_datetime_string o.birthtime o.mtime ++
      suffixLower p.name ∧
    (∀ t : Nat, o.birthtime = some t →
      get_file_datetime_string o.birthtime o.mtime = strftimeYmdHMS (localtime t)) ∧
    (o.birthtime = none →
      get_file_datetime_string o.birthtime o.mtime = strftimeYmdHMS (localtime o.mtime)) ∧
    (∀ n₁ n₂ : Nat, handle_file { o with now := n₁ } p = handle_file { o with now := n₂ } p) := by
  refine ⟨?_, ?_, ?_, ?_⟩
  · unfold handle_file at hmem
    cases hr : routeOf p with
    | pdf =>
      simp only [hr] at hmem
      exact rename_shape_pdf o p hr pr hmem
    | image =>
      simp only [hr] at hmem
      exact rename_shape_image o p hr pr hmem
    | text =>
      simp only [hr] at hmem
      exact rename_shape_text o p hr pr hmem
    | unsupported =>
      simp only [hr] at hmem
      simp [renamedPairs] at hmem
  · intro t ht
    rw [ht]
    rfl
  · intro hn
    rw [hn]
    rfl
  · intro n₁ n₂
    cases o
    rfl

/-- C9 (counterexample): the extension of the renamed file is the lowercased
    original extension, not the original extension verbatim — an image named
    `photo.JPG` is renamed with `.jpg`. -/
theorem c9_counterexample_extension_lowercased :
    renamedPairs (handle_file oDefault pJpgUpper) =
      [("photo.JPG", "a b c_1970-01-02_10.17.36.jpg")] ∧
    pySuffix "photo.JPG" = ".JPG" ∧
    ("a b c_1970-01-02_10.17.36.jpg" : String) ≠ "a b c_1970-01-02_10.17.36.JPG" := by
  refine ⟨rfl, rfl, by decide⟩

theorem c9_rename_uses_file_metadata_timestamp_witness :
    (("a.pdf", "meeting notes about stuff_1970-01-02_10.17.36.pdf") ∈
      renamedPairs (handle_file oDefault pPdf)) ∧
    (("a.pdf", "meeting notes about stuff_1970-01-02_10.17.36.pdf").2 =
      classifiedDesc oDefault pPdf ++ "_" ++
        get_file_datetime_string oDefault.birthtime oDefault.mtime ++
        suffixLower pPdf.name ∧
    (∀ t : Nat, oDefault.birthtime = some t →
      get_file_datetime_string oDefault.birthtime oDefault.mtime =
        strftimeYmdHMS (localtime t)) ∧
    (oDefault.birthtime = none →
      get_file_datetime_string oDefault.birthtime oDefault.mtime =
        strftimeYmdHMS (localtime oDefault.mtime)) ∧
    (∀ n₁ n₂ : Nat, handle_file { oDefault with now := n₁ } pPdf =
      handle_file { oDefault with now := n₂ } pPdf)) :=
  ⟨by decide,
    c9_rename_uses_file_metadata_timestamp oDefault pPdf
      ("a.pdf", "meeting notes about stuff_1970-01-02_10.17.36.pdf") (by decide)⟩

end SmartParse
